import Mathlib

/-!
Verification of the pokemon-wordle game server core: the feedback engine
(the inline feedback computation in the makeGuess handler and the
generateFeedback function of the getGameSession handler) and the session
state machine (guess admission, terminal transitions, session views).

The embedding follows src/server/src/schema.ts (the makeGuess handler is
the second document of that file) and
src/server/src/handlers/get_game_session.ts. Database tables are modelled
as lists of row records; SQL selects are modelled as find?/filter over
those lists in storage order; serial primary-key ids and created_at
timestamps, which no handler logic ever reads, are omitted from the row
models. Timestamps written by the handlers (completed_at, via new Date())
are modelled as an explicit now : Nat parameter.
-/

namespace PokemonWordle

/-- A pokemon row, from pokemonTable in src/server/src/db/schema.ts.
Nullable columns type2 and habitat are Option String. -/
structure Pokemon where
  id : Nat
  name : String
  type1 : String
  type2 : Option String
  evolution_count : Nat
  is_final_evolution : Bool
  color : String
  habitat : Option String
  generation : Nat
  sprite_url : String
deriving DecidableEq

/-- A daily_pokemon row (date column omitted: no handler under
verification reads it). -/
structure DailyPokemon where
  id : Nat
  pokemon_id : Nat
deriving DecidableEq

/-- A game_session row from gameSessionTable. -/
structure GameSession where
  session_id : String
  daily_pokemon_id : Nat
  max_guesses : Nat
  current_guesses : Nat
  is_completed : Bool
  is_won : Bool
  completed_at : Option Nat
deriving DecidableEq

/-- A game_guess row from gameGuessTable. -/
structure GameGuess where
  session_id : String
  guess_number : Nat
  guessed_pokemon_id : Nat
  is_correct : Bool
deriving DecidableEq

/-- Two-valued verdict for the categorical attributes. -/
inductive MatchVerdict where
  | correct
  | incorrect
deriving DecidableEq

/-- Three-valued verdict for the ordinal attributes
(evolution_count, generation). -/
inductive OrdVerdict where
  | correct
  | higher
  | lower
deriving DecidableEq

/-- The seven-field feedback record, from guessFeedbackSchema in
src/server/src/schema.ts. -/
structure GuessFeedback where
  type1 : MatchVerdict
  type2 : MatchVerdict
  evolution_count : OrdVerdict
  is_final_evolution : MatchVerdict
  color : MatchVerdict
  habitat : MatchVerdict
  generation : OrdVerdict
deriving DecidableEq

/-- The inline feedback computation of the makeGuess handler
(src/server/src/schema.ts, the feedback object built inside
guessResults.map): equality gives correct; for evolution_count and
generation, guess value strictly below the target gives higher,
otherwise lower; same for generation. -/
def makeGuessFeedback (pokemon targetPokemon : Pokemon) : GuessFeedback :=
  { type1 := if pokemon.type1 = targetPokemon.type1 then .correct else .incorrect
    type2 := if pokemon.type2 = targetPokemon.type2 then .correct else .incorrect
    evolution_count :=
      if pokemon.evolution_count = targetPokemon.evolution_count then .correct
      else if pokemon.evolution_count < targetPokemon.evolution_count then .higher
      else .lower
    is_final_evolution :=
      if pokemon.is_final_evolution = targetPokemon.is_final_evolution then .correct
      else .incorrect
    color := if pokemon.color = targetPokemon.color then .correct else .incorrect
    habitat := if pokemon.habitat = targetPokemon.habitat then .correct else .incorrect
    generation :=
      if pokemon.generation = targetPokemon.generation then .correct
      else if pokemon.generation < targetPokemon.generation then .higher
      else .lower }

/-- The generateFeedback function of
src/server/src/handlers/get_game_session.ts: equality gives correct; for
evolution_count and generation, guess value strictly above the target
gives lower, otherwise higher. -/
def generateFeedback (guessedPokemon targetPokemon : Pokemon) : GuessFeedback :=
  { type1 := if guessedPokemon.type1 = targetPokemon.type1 then .correct else .incorrect
    type2 := if guessedPokemon.type2 = targetPokemon.type2 then .correct else .incorrect
    evolution_count :=
      if guessedPokemon.evolution_count = targetPokemon.evolution_count then .correct
      else if targetPokemon.evolution_count < guessedPokemon.evolution_count then .lower
      else .higher
    is_final_evolution :=
      if guessedPokemon.is_final_evolution = targetPokemon.is_final_evolution then .correct
      else .incorrect
    color := if guessedPokemon.color = targetPokemon.color then .correct else .incorrect
    habitat := if guessedPokemon.habitat = targetPokemon.habitat then .correct else .incorrect
    generation :=
      if guessedPokemon.generation = targetPokemon.generation then .correct
      else if targetPokemon.generation < guessedPokemon.generation then .lower
      else .higher }

/-- The all-correct feedback record. -/
def allCorrectFeedback : GuessFeedback :=
  { type1 := .correct
    type2 := .correct
    evolution_count := .correct
    is_final_evolution := .correct
    color := .correct
    habitat := .correct
    generation := .correct }

/-- The two feedback implementations agree on every input: both emit
higher exactly when the guess value is strictly below the target value. -/
theorem feedback_agree (g t : Pokemon) : makeGuessFeedback g t = generateFeedback g t := by
  simp only [makeGuessFeedback, generateFeedback, GuessFeedback.mk.injEq]
  refine ⟨trivial, trivial, ?_, trivial, trivial, trivial, ?_⟩
  · split_ifs <;> first | rfl | omega
  · split_ifs <;> first | rfl | omega

/-- The target pokemon of the concrete scenario in the spec and in claim
C1 (identifier, display name and sprite are not constrained by the
scenario). -/
def c1Target : Pokemon :=
  { id := 1
    name := "targetmon"
    type1 := "electric"
    type2 := none
    evolution_count := 2
    is_final_evolution := false
    color := "yellow"
    habitat := some "forest"
    generation := 1
    sprite_url := "t.png" }

/-- The guessed pokemon of the concrete scenario in claim C1. -/
def c1Guess : Pokemon :=
  { id := 2
    name := "guessmon"
    type1 := "fire"
    type2 := some "flying"
    evolution_count := 3
    is_final_evolution := true
    color := "red"
    habitat := some "mountain"
    generation := 1
    sprite_url := "g.png" }

/-- C1: for the scenario target (electric/none, depth 2, not final,
yellow, forest, generation 1) and guess (fire/flying, depth 3, final,
red, mountain, generation 1), both feedback implementations produce
incorrect on type1, type2, is_final_evolution, color and habitat, the
verdict lower (target value is lower) on evolution_count, and correct on
generation. -/
theorem c1_scenario_feedback :
    makeGuessFeedback c1Guess c1Target =
      { type1 := .incorrect
        type2 := .incorrect
        evolution_count := .lower
        is_final_evolution := .incorrect
        color := .incorrect
        habitat := .incorrect
        generation := .correct } ∧
    generateFeedback c1Guess c1Target =
      { type1 := .incorrect
        type2 := .incorrect
        evolution_count := .lower
        is_final_evolution := .incorrect
        color := .incorrect
        habitat := .incorrect
        generation := .correct } := by
  constructor <;> decide

/-- C2 counterexample: the claim asserts the two feedback
implementations disagree on directionality on some input; in fact no
such input exists, the implementations are extensionally equal. -/
theorem c2_no_disagreement :
    ¬ ∃ g t : Pokemon, makeGuessFeedback g t ≠ generateFeedback g t := by
  rintro ⟨g, t, hne⟩
  exact hne (feedback_agree g t)

/-- C2 amended: the two feedback implementations, the inline computation
in makeGuess and generateFeedback in getGameSession, agree on every
candidate/target pair, emitting the same directional verdicts. -/
theorem c2_feedback_impls_agree (g t : Pokemon) :
    makeGuessFeedback g t = generateFeedback g t :=
  feedback_agree g t

/-- C2 amended, witness at the concrete scenario pair. -/
theorem c2_feedback_impls_agree_witness :
    makeGuessFeedback c1Guess c1Target = generateFeedback c1Guess c1Target :=
  c2_feedback_impls_agree c1Guess c1Target

/-- C3: feedback of any entity against itself is correct on all seven
fields, for both implementations, including when type2 or habitat is
absent. -/
theorem c3_feedback_self_all_correct (A : Pokemon) :
    makeGuessFeedback A A = allCorrectFeedback ∧
    generateFeedback A A = allCorrectFeedback := by
  constructor <;> simp [makeGuessFeedback, generateFeedback, allCorrectFeedback]

/-- The toLowerCase() call applied to the guessed name at the makeGuess
boundary, modelled character-wise over the string's character list. -/
def toLowerCase (s : String) : String := String.mk (s.data.map Char.toLower)

/-- The database state: the four tables, each a list of rows in storage
order. -/
structure DB where
  pokemons : List Pokemon
  daily_pokemons : List DailyPokemon
  sessions : List GameSession
  guesses : List GameGuess
deriving DecidableEq

/-- The errors thrown by the handlers (Error messages of makeGuess and
getGameSession). -/
inductive GameError where
  | sessionNotFound
  | alreadyCompleted
  | maxGuessesReached
  | pokemonNotFound
deriving DecidableEq

/-- Input of makeGuess (makeGuessInputSchema). -/
structure MakeGuessInput where
  session_id : String
  pokemon_name : String
deriving DecidableEq

/-- Input of getGameSession (getGameSessionInputSchema). -/
structure GetGameSessionInput where
  session_id : String
deriving DecidableEq

/-- One element of the guesses array of a game state: a guess row, its
pokemon, and the feedback against the target. -/
structure GuessView where
  guess : GameGuess
  pokemon : Pokemon
  feedback : GuessFeedback
deriving DecidableEq

/-- The session view (gameStateSchema): session row, the target pokemon
when revealed, the guess history with feedback, and the can_guess flag. -/
structure GameState where
  session : GameSession
  target_pokemon : Option Pokemon
  guesses : List GuessView
  can_guess : Bool
deriving DecidableEq

/-- The opening select of both handlers: game_session inner-joined with
daily_pokemon (on daily_pokemon_id) and pokemon (on pokemon_id), filtered
by session_id, first row taken. An inner join with no matching row
yields the empty result, i.e. none. -/
def lookupSessionJoin (db : DB) (sid : String) : Option (GameSession × Pokemon) :=
  (db.sessions.find? (fun s => s.session_id == sid)).bind fun s =>
    (db.daily_pokemons.find? (fun d => d.id == s.daily_pokemon_id)).bind fun d =>
      (db.pokemons.find? (fun p => p.id == d.pokemon_id)).map fun p => (s, p)

/-- The guess-history select of both handlers: game_guess rows of the
session inner-joined with pokemon (on guessed_pokemon_id), in storage
order. -/
def guessRows (db : DB) (sid : String) : List (GameGuess × Pokemon) :=
  (db.guesses.filter (fun g => g.session_id == sid)).filterMap fun g =>
    (db.pokemons.find? (fun p => p.id == g.guessed_pokemon_id)).map fun p => (g, p)

/-- Result of makeGuess: the database after the operation together with
the returned game state or the thrown error. -/
structure MakeGuessResult where
  db : DB
  out : Except GameError GameState

/-- The makeGuess handler (second document of src/server/src/schema.ts):
look up the session join; reject if completed, if the guess budget is
used up, or if the guessed name (lowercased) resolves to no pokemon;
otherwise insert the guess row, update every session row with this
session_id, re-select the session, and build the refreshed view with the
inline feedback computation. The unreachable none branch of the
re-select models the crash the source would take dereferencing a missing
row. -/
def makeGuess (db : DB) (input : MakeGuessInput) (now : Nat) : MakeGuessResult :=
  match lookupSessionJoin db input.session_id with
  | none => ⟨db, .error .sessionNotFound⟩
  | some (session, targetPokemon) =>
    if session.is_completed then ⟨db, .error .alreadyCompleted⟩
    else if session.max_guesses ≤ session.current_guesses then
      ⟨db, .error .maxGuessesReached⟩
    else
      match db.pokemons.find? (fun p => p.name == toLowerCase input.pokemon_name) with
      | none => ⟨db, .error .pokemonNotFound⟩
      | some guessedPokemon =>
        let isCorrect : Bool := guessedPokemon.id == targetPokemon.id
        let newGuessNumber := session.current_guesses + 1
        let isGameComplete : Bool :=
          isCorrect || decide (session.max_guesses ≤ newGuessNumber)
        let newGuess : GameGuess :=
          { session_id := input.session_id
            guess_number := newGuessNumber
            guessed_pokemon_id := guessedPokemon.id
            is_correct := isCorrect }
        let db2 : DB :=
          { db with
            guesses := db.guesses ++ [newGuess]
            sessions := db.sessions.map fun r =>
              if r.session_id == input.session_id then
                { r with
                  current_guesses := newGuessNumber
                  is_completed := isGameComplete
                  is_won := isCorrect
                  completed_at := if isGameComplete then some now else none }
              else r }
        match db2.sessions.find? (fun r => r.session_id == input.session_id) with
        | none => ⟨db2, .error .sessionNotFound⟩
        | some updatedSession =>
          ⟨db2, .ok
            { session := updatedSession
              target_pokemon :=
                if updatedSession.is_completed then some targetPokemon else none
              guesses := (guessRows db2 input.session_id).map fun gp =>
                { guess := gp.1
                  pokemon := gp.2
                  feedback := makeGuessFeedback gp.2 targetPokemon }
              can_guess := !updatedSession.is_completed }⟩

/-- The getGameSession handler
(src/server/src/handlers/get_game_session.ts): look up the session join,
build the guess history with generateFeedback, sort it by guess_number
(a stable sort, as Array.prototype.sort is), and return the view with
can_guess set when the session is not completed and the budget is not
exhausted. -/
def getGameSession (db : DB) (input : GetGameSessionInput) : Except GameError GameState :=
  match lookupSessionJoin db input.session_id with
  | none => .error .sessionNotFound
  | some (session, targetPokemon) =>
    let guesses : List GuessView := (guessRows db input.session_id).map fun gp =>
      { guess := gp.1
        pokemon := gp.2
        feedback := generateFeedback gp.2 targetPokemon }
    let sorted := guesses.mergeSort fun a b =>
      decide (a.guess.guess_number ≤ b.guess.guess_number)
    .ok
      { session := session
        target_pokemon := if session.is_completed then some targetPokemon else none
        guesses := sorted
        can_guess := !session.is_completed &&
          decide (session.current_guesses < session.max_guesses) }

/-- Inversion of the opening join: a successful lookup pins down the
three underlying find? calls. -/
theorem lookupSessionJoin_inv {db : DB} {sid : String} {s : GameSession} {t : Pokemon}
    (h : lookupSessionJoin db sid = some (s, t)) :
    db.sessions.find? (fun r => r.session_id == sid) = some s ∧
    ∃ d, db.daily_pokemons.find? (fun r => r.id == s.daily_pokemon_id) = some d ∧
      db.pokemons.find? (fun p => p.id == d.pokemon_id) = some t := by
  unfold lookupSessionJoin at h
  simp only [Option.bind_eq_some, Option.map_eq_some', Prod.mk.injEq] at h
  obtain ⟨s0, hs, d, hd, p, hp, hse, hte⟩ := h
  subst hse
  subst hte
  exact ⟨hs, d, hd, hp⟩

/-- Selecting by session_id after an update keyed on session_id finds
the updated image of the row found before, for any per-row update that
leaves session_id unchanged. -/
theorem find?_update_sessions (l : List GameSession) (sid : String)
    (f : GameSession → GameSession) (hf : ∀ r, (f r).session_id = r.session_id) :
    (l.map fun r => if r.session_id == sid then f r else r).find?
        (fun r => r.session_id == sid) =
      (l.find? fun r => r.session_id == sid).map
        (fun r => if r.session_id == sid then f r else r) := by
  have hp : ((fun r : GameSession => r.session_id == sid) ∘
      (fun r => if r.session_id == sid then f r else r)) =
      (fun r : GameSession => r.session_id == sid) := by
    funext r
    by_cases hr : r.session_id = sid
    · simp [hr, hf]
    · simp [hr]
  rw [List.find?_map, hp]

/-- In a list pairwise-distinct under a projection, two members with the
same projection are the same element. -/
theorem pairwise_ne_unique {α β : Type _} {f : α → β} {l : List α} {a : α} {b : α}
    (hp : l.Pairwise fun u v => f u ≠ f v)
    (hma : a ∈ l) (hmb : b ∈ l) (hfab : f a = f b) : a = b := by
  by_contra hne
  have hsym : Symmetric fun u v : α => f u ≠ f v := by
    intro u v hone heq
    exact hone heq.symm
  exact hp.forall hsym hma hmb hne hfab

/-- A successful session lookup fully determines the view getGameSession
returns. -/
theorem getGameSession_success (db : DB) (input : GetGameSessionInput)
    (s : GameSession) (t : Pokemon)
    (h1 : lookupSessionJoin db input.session_id = some (s, t)) :
    getGameSession db input = Except.ok
      { session := s
        target_pokemon := if s.is_completed then some t else none
        guesses := ((guessRows db input.session_id).map fun gp =>
            { guess := gp.1
              pokemon := gp.2
              feedback := generateFeedback gp.2 t : GuessView }).mergeSort fun a b =>
            decide (a.guess.guess_number ≤ b.guess.guess_number)
        can_guess := !s.is_completed &&
          decide (s.current_guesses < s.max_guesses) } := by
  unfold getGameSession
  rw [h1]

/-- On the success path (session found and active, budget left, guessed
name resolves), makeGuess returns ok, and the view's session row is the
found row with the counter bumped and the completion fields recomputed;
the view's can_guess and target_pokemon fields are tied to that row. -/
theorem makeGuess_success_view (db : DB) (input : MakeGuessInput) (now : Nat)
    (s : GameSession) (t g : Pokemon)
    (h1 : lookupSessionJoin db input.session_id = some (s, t))
    (h2 : s.is_completed = false)
    (h3 : s.current_guesses < s.max_guesses)
    (h4 : db.pokemons.find? (fun p => p.name == toLowerCase input.pokemon_name) = some g) :
    ∃ st : GameState, (makeGuess db input now).out = Except.ok st ∧
      st.session =
        { s with
          current_guesses := s.current_guesses + 1
          is_completed :=
            (g.id == t.id) || decide (s.max_guesses ≤ s.current_guesses + 1)
          is_won := g.id == t.id
          completed_at :=
            if (g.id == t.id) || decide (s.max_guesses ≤ s.current_guesses + 1)
            then some now else none } ∧
      st.can_guess = !st.session.is_completed ∧
      st.target_pokemon =
        (if st.session.is_completed = true then some t else none) := by
  have hs := (lookupSessionJoin_inv h1).1
  have hsid : (s.session_id == input.session_id) = true := by
    simpa using List.find?_some hs
  have h3' : ¬ (s.max_guesses ≤ s.current_guesses) := Nat.not_le.mpr h3
  have hupd := find?_update_sessions db.sessions input.session_id
    (fun r =>
      { r with
        current_guesses := s.current_guesses + 1
        is_completed :=
          (g.id == t.id) || decide (s.max_guesses ≤ s.current_guesses + 1)
        is_won := g.id == t.id
        completed_at :=
          if (g.id == t.id) || decide (s.max_guesses ≤ s.current_guesses + 1)
          then some now else none })
    (fun r => rfl)
  unfold makeGuess
  rw [h1]
  simp only [h2, Bool.false_eq_true, if_false, if_neg h3', h4]
  rw [hupd, hs]
  dsimp only [Option.map_some, Option.map_some']
  rw [if_pos hsid]
  exact ⟨_, rfl, rfl, rfl, rfl⟩

/-- On the success path the database after makeGuess is the old one with
one guess row appended and the session rows keyed by the session_id
rewritten. -/
theorem makeGuess_success_db (db : DB) (input : MakeGuessInput) (now : Nat)
    (s : GameSession) (t g : Pokemon)
    (h1 : lookupSessionJoin db input.session_id = some (s, t))
    (h2 : s.is_completed = false)
    (h3 : s.current_guesses < s.max_guesses)
    (h4 : db.pokemons.find? (fun p => p.name == toLowerCase input.pokemon_name) = some g) :
    (makeGuess db input now).db =
      { db with
        guesses := db.guesses ++
          [{ session_id := input.session_id
             guess_number := s.current_guesses + 1
             guessed_pokemon_id := g.id
             is_correct := g.id == t.id }]
        sessions := db.sessions.map fun r =>
          if r.session_id == input.session_id then
            { r with
              current_guesses := s.current_guesses + 1
              is_completed :=
                (g.id == t.id) || decide (s.max_guesses ≤ s.current_guesses + 1)
              is_won := g.id == t.id
              completed_at :=
                if (g.id == t.id) || decide (s.max_guesses ≤ s.current_guesses + 1)
                then some now else none }
          else r } := by
  have hs := (lookupSessionJoin_inv h1).1
  have hsid : (s.session_id == input.session_id) = true := by
    simpa using List.find?_some hs
  have h3' : ¬ (s.max_guesses ≤ s.current_guesses) := Nat.not_le.mpr h3
  have hupd := find?_update_sessions db.sessions input.session_id
    (fun r =>
      { r with
        current_guesses := s.current_guesses + 1
        is_completed :=
          (g.id == t.id) || decide (s.max_guesses ≤ s.current_guesses + 1)
        is_won := g.id == t.id
        completed_at :=
          if (g.id == t.id) || decide (s.max_guesses ≤ s.current_guesses + 1)
          then some now else none })
    (fun r => rfl)
  unfold makeGuess
  rw [h1]
  simp only [h2, Bool.false_eq_true, if_false, if_neg h3', h4]
  rw [hupd, hs]
  dsimp only [Option.map_some, Option.map_some']

/-- makeGuess either leaves the database untouched or, on the success
path, appends exactly one guess row and rewrites the session rows keyed
by the session_id. -/
theorem makeGuess_db_shape (db : DB) (input : MakeGuessInput) (now : Nat) :
    (makeGuess db input now).db = db ∨
    ∃ (s : GameSession) (t g : Pokemon),
      lookupSessionJoin db input.session_id = some (s, t) ∧
      s.is_completed = false ∧
      s.current_guesses < s.max_guesses ∧
      db.pokemons.find? (fun p => p.name == toLowerCase input.pokemon_name) = some g ∧
      (makeGuess db input now).db =
        { db with
          guesses := db.guesses ++
            [{ session_id := input.session_id
               guess_number := s.current_guesses + 1
               guessed_pokemon_id := g.id
               is_correct := g.id == t.id }]
          sessions := db.sessions.map fun r =>
            if r.session_id == input.session_id then
              { r with
                current_guesses := s.current_guesses + 1
                is_completed :=
                  (g.id == t.id) || decide (s.max_guesses ≤ s.current_guesses + 1)
                is_won := g.id == t.id
                completed_at :=
                  if (g.id == t.id) || decide (s.max_guesses ≤ s.current_guesses + 1)
                  then some now else none }
            else r } := by
  cases heq : lookupSessionJoin db input.session_id with
  | none =>
    left
    unfold makeGuess
    rw [heq]
  | some st =>
    obtain ⟨s, t⟩ := st
    by_cases hc : s.is_completed = true
    · left
      unfold makeGuess
      rw [heq]
      simp [hc]
    · have h2 : s.is_completed = false := Bool.not_eq_true _ |>.mp hc
      by_cases hm : s.max_guesses ≤ s.current_guesses
      · left
        unfold makeGuess
        rw [heq]
        simp [h2, hm]
      · have h3 : s.current_guesses < s.max_guesses := Nat.lt_of_not_le hm
        cases hg : db.pokemons.find? (fun p => p.name == toLowerCase input.pokemon_name) with
        | none =>
          left
          unfold makeGuess
          rw [heq]
          simp [h2, hm, hg]
        | some g =>
          right
          exact ⟨s, t, g, rfl, h2, h3, rfl,
            makeGuess_success_db db input now s t g heq h2 h3 hg⟩

/-- A catalog and a fresh active session used to instantiate the
universally quantified theorems at concrete inputs. -/
def baseSession : GameSession :=
  { session_id := "s1", daily_pokemon_id := 10, max_guesses := 3,
    current_guesses := 0, is_completed := false, is_won := false,
    completed_at := none }

/-- see baseSession. -/
def baseDB : DB :=
  { pokemons := [c1Target, c1Guess]
    daily_pokemons := [{ id := 10, pokemon_id := 1 }]
    sessions := [baseSession]
    guesses := [] }

/-- The empty database. -/
def emptyDB : DB :=
  { pokemons := [], daily_pokemons := [], sessions := [], guesses := [] }

/-- C4: a guess that resolves to the target entity completes the session
as won, with completed_at set, regardless of how many guesses remain. -/
theorem c4_correct_guess_wins (db : DB) (input : MakeGuessInput) (now : Nat)
    (s : GameSession) (t g : Pokemon)
    (h1 : lookupSessionJoin db input.session_id = some (s, t))
    (h2 : s.is_completed = false)
    (h3 : s.current_guesses < s.max_guesses)
    (h4 : db.pokemons.find? (fun p => p.name == toLowerCase input.pokemon_name) = some g)
    (h5 : g.id = t.id) :
    ∃ st : GameState, (makeGuess db input now).out = Except.ok st ∧
      st.session.is_completed = true ∧ st.session.is_won = true ∧
      st.session.completed_at = some now := by
  obtain ⟨st, hok, hsession, -, -⟩ := makeGuess_success_view db input now s t g h1 h2 h3 h4
  refine ⟨st, hok, ?_, ?_, ?_⟩ <;> rw [hsession] <;> simp [h5]

/-- C4 witness: guessing the target on a fresh session with budget 3
wins immediately. -/
theorem c4_witness :
    ∃ st : GameState,
      (makeGuess baseDB { session_id := "s1", pokemon_name := "targetmon" } 7).out =
        Except.ok st ∧
      st.session.is_completed = true ∧ st.session.is_won = true ∧
      st.session.completed_at = some 7 :=
  c4_correct_guess_wins baseDB { session_id := "s1", pokemon_name := "targetmon" } 7
    baseSession c1Target c1Target (by decide) rfl (by decide) (by decide) rfl

/-- C5: an incorrect guess never wins; it completes the session exactly
when it consumes the last budgeted guess, and otherwise leaves it
active. -/
theorem c5_incorrect_guess_transitions (db : DB) (input : MakeGuessInput) (now : Nat)
    (s : GameSession) (t g : Pokemon)
    (h1 : lookupSessionJoin db input.session_id = some (s, t))
    (h2 : s.is_completed = false)
    (h3 : s.current_guesses < s.max_guesses)
    (h4 : db.pokemons.find? (fun p => p.name == toLowerCase input.pokemon_name) = some g)
    (h5 : g.id ≠ t.id) :
    ∃ st : GameState, (makeGuess db input now).out = Except.ok st ∧
      st.session.is_won = false ∧
      (s.current_guesses + 1 = s.max_guesses →
        st.session.is_completed = true ∧ st.session.completed_at = some now) ∧
      (s.current_guesses + 1 < s.max_guesses →
        st.session.is_completed = false ∧ st.session.completed_at = none) := by
  obtain ⟨st, hok, hsession, -, -⟩ := makeGuess_success_view db input now s t g h1 h2 h3 h4
  have hbe : (g.id == t.id) = false := beq_eq_false_iff_ne.mpr h5
  refine ⟨st, hok, ?_, ?_, ?_⟩
  · rw [hsession]
    exact hbe
  · intro hl
    rw [hsession]
    constructor <;> simp [hbe, hl]
  · intro hl
    have hnl : ¬ (s.max_guesses ≤ s.current_guesses + 1) := Nat.not_le.mpr hl
    rw [hsession]
    constructor <;> simp [hbe, hnl]

/-- C5 witness: an incorrect guess on a fresh session with budget 3
leaves the session active (the two conditional branches are instantiated
with current_guesses + 1 = 1 and max_guesses = 3). -/
theorem c5_witness :
    ∃ st : GameState,
      (makeGuess baseDB { session_id := "s1", pokemon_name := "guessmon" } 7).out =
        Except.ok st ∧
      st.session.is_won = false ∧
      (0 + 1 = 3 → st.session.is_completed = true ∧ st.session.completed_at = some 7) ∧
      (0 + 1 < 3 → st.session.is_completed = false ∧ st.session.completed_at = none) :=
  c5_incorrect_guess_transitions baseDB { session_id := "s1", pokemon_name := "guessmon" } 7
    baseSession c1Target c1Guess (by decide) rfl (by decide) (by decide) (by decide)

/-- C6: every failure of makeGuess (missing session, completed session,
exhausted budget, unresolvable name) leaves the stored state unchanged:
no guess row is appended and no session row is modified. -/
theorem c6_failure_no_mutation (db : DB) (input : MakeGuessInput) (now : Nat)
    (e : GameError) (h : (makeGuess db input now).out = Except.error e) :
    (makeGuess db input now).db = db := by
  rcases makeGuess_db_shape db input now with hdb | ⟨s, t, g, h1, h2, h3, h4, hdb⟩
  · exact hdb
  · obtain ⟨st, hok, -, -, -⟩ := makeGuess_success_view db input now s t g h1 h2 h3 h4
    rw [hok] at h
    exact Except.noConfusion h

/-- C6 witness: a guess against a missing session errors and leaves the
empty database unchanged. -/
theorem c6_witness :
    (makeGuess emptyDB { session_id := "s1", pokemon_name := "x" } 0).db = emptyDB :=
  c6_failure_no_mutation emptyDB _ 0 GameError.sessionNotFound rfl

/-- Any view getGameSession returns is the one determined by the session
join it found. -/
theorem getGameSession_ok_inv (db : DB) (input : GetGameSessionInput) (st : GameState)
    (h : getGameSession db input = Except.ok st) :
    ∃ s t, lookupSessionJoin db input.session_id = some (s, t) ∧
      st = { session := s
             target_pokemon := if s.is_completed then some t else none
             guesses := ((guessRows db input.session_id).map fun gp =>
                 { guess := gp.1
                   pokemon := gp.2
                   feedback := generateFeedback gp.2 t : GuessView }).mergeSort fun a b =>
                 decide (a.guess.guess_number ≤ b.guess.guess_number)
             can_guess := !s.is_completed &&
               decide (s.current_guesses < s.max_guesses) } := by
  cases heq : lookupSessionJoin db input.session_id with
  | none =>
    unfold getGameSession at h
    rw [heq] at h
    exact Except.noConfusion h
  | some p =>
    obtain ⟨s, t⟩ := p
    rw [getGameSession_success db input s t heq] at h
    injection h with h
    exact ⟨s, t, rfl, h.symm⟩

/-- Any view makeGuess returns on success has can_guess equal to the
negated completion flag of its session row, and carries the target
exactly when that flag is set. -/
theorem makeGuess_ok_inv (db : DB) (input : MakeGuessInput) (now : Nat) (st : GameState)
    (h : (makeGuess db input now).out = Except.ok st) :
    st.can_guess = !st.session.is_completed ∧
    st.target_pokemon.isSome = st.session.is_completed := by
  cases heq : lookupSessionJoin db input.session_id with
  | none =>
    unfold makeGuess at h
    rw [heq] at h
    exact Except.noConfusion h
  | some p =>
    obtain ⟨s, t⟩ := p
    by_cases hc : s.is_completed = true
    · unfold makeGuess at h
      rw [heq] at h
      simp [hc] at h
    · have h2 : s.is_completed = false := Bool.not_eq_true _ |>.mp hc
      by_cases hm : s.max_guesses ≤ s.current_guesses
      · unfold makeGuess at h
        rw [heq] at h
        simp [h2, hm] at h
      · have h3 := Nat.lt_of_not_le hm
        cases hg : db.pokemons.find? (fun p => p.name == toLowerCase input.pokemon_name) with
        | none =>
          unfold makeGuess at h
          rw [heq] at h
          simp [h2, hm, hg] at h
        | some g =>
          obtain ⟨st2, hok, -, hcg, htp⟩ :=
            makeGuess_success_view db input now s t g heq h2 h3 hg
          rw [h] at hok
          injection hok with hok
          subst hok
          refine ⟨hcg, ?_⟩
          rw [htp]
          cases hfin : st.session.is_completed <;> simp [hfin]

/-- A database whose stored guess rows for session s3 are out of
sequence-number order (2 before 1). -/
def outOfOrderDB : DB :=
  { pokemons := [c1Target, c1Guess]
    daily_pokemons := [{ id := 10, pokemon_id := 1 }]
    sessions := [{ session_id := "s3", daily_pokemon_id := 10, max_guesses := 5,
                   current_guesses := 2, is_completed := false, is_won := false,
                   completed_at := none }]
    guesses := [{ session_id := "s3", guess_number := 2, guessed_pokemon_id := 2,
                  is_correct := false },
                { session_id := "s3", guess_number := 1, guessed_pokemon_id := 2,
                  is_correct := false }] }

/-- C7 counterexample: with guess rows stored out of order, the view
returned by makeGuess lists sequence numbers 2, 1, 3 — not sorted — so
the claim that both handlers always return a sorted history fails. -/
theorem c7_makeGuess_unsorted :
    ∃ st : GameState,
      (makeGuess outOfOrderDB { session_id := "s3", pokemon_name := "guessmon" } 0).out =
        Except.ok st ∧
      st.guesses.map (fun v => v.guess.guess_number) = [2, 1, 3] ∧
      ¬ List.Pairwise (fun a b : Nat => a ≤ b) [2, 1, 3] :=
  ⟨_, rfl, rfl, by decide⟩

/-- C7 amended: getGameSession always returns the guess history sorted
by increasing sequence number, for every storage order; the view
returned by makeGuess presents the rows in storage order (no sort is
applied there). -/
theorem c7_get_session_sorted (db : DB) (input : GetGameSessionInput) (st : GameState)
    (h : getGameSession db input = Except.ok st) :
    List.Pairwise (fun a b => a.guess.guess_number ≤ b.guess.guess_number) st.guesses := by
  obtain ⟨s, t, -, hst⟩ := getGameSession_ok_inv db input st h
  subst hst
  dsimp only
  have hsorted := @List.sorted_mergeSort GuessView
    (fun a b => decide (a.guess.guess_number ≤ b.guess.guess_number))
    (fun a b c h1 h2 => by
      simp only [decide_eq_true_eq] at *
      omega)
    (fun a b => by
      simp only [Bool.or_eq_true, decide_eq_true_eq]
      omega)
    ((guessRows db input.session_id).map fun gp =>
      { guess := gp.1, pokemon := gp.2, feedback := generateFeedback gp.2 t })
  exact hsorted.imp (fun hab => by simpa using hab)

unseal List.merge List.mergeSort in
/-- C7 witness: on the out-of-order database, getGameSession returns the
history sorted. -/
theorem c7_witness :
    ∃ st : GameState, getGameSession outOfOrderDB { session_id := "s3" } = Except.ok st ∧
      List.Pairwise (fun a b => a.guess.guess_number ≤ b.guess.guess_number) st.guesses :=
  ⟨_, rfl, c7_get_session_sorted outOfOrderDB { session_id := "s3" } _ rfl⟩

/-- C8: both handlers include the target entity in the view exactly when
the session is completed; while the session is active the target field
is none. -/
theorem c8_target_revealed_iff_terminal :
    (∀ (db : DB) (input : GetGameSessionInput) (st : GameState),
        getGameSession db input = Except.ok st →
        (st.target_pokemon.isSome = true ↔ st.session.is_completed = true)) ∧
    (∀ (db : DB) (input : MakeGuessInput) (now : Nat) (st : GameState),
        (makeGuess db input now).out = Except.ok st →
        (st.target_pokemon.isSome = true ↔ st.session.is_completed = true)) := by
  constructor
  · intro db input st h
    obtain ⟨s, t, -, hst⟩ := getGameSession_ok_inv db input st h
    subst hst
    dsimp only
    cases hc : s.is_completed <;> simp [hc]
  · intro db input now st h
    have hts := (makeGuess_ok_inv db input now st h).2
    rw [← hts]

unseal List.merge List.mergeSort in
/-- C8 witness: instantiated on the fresh session of baseDB for both
handlers. -/
theorem c8_witness :
    (∃ st : GameState, getGameSession baseDB { session_id := "s1" } = Except.ok st ∧
      (st.target_pokemon.isSome = true ↔ st.session.is_completed = true)) ∧
    (∃ st : GameState,
      (makeGuess baseDB { session_id := "s1", pokemon_name := "targetmon" } 3).out =
        Except.ok st ∧
      (st.target_pokemon.isSome = true ↔ st.session.is_completed = true)) := by
  constructor
  · exact ⟨_, rfl, c8_target_revealed_iff_terminal.1 baseDB { session_id := "s1" } _ rfl⟩
  · exact ⟨_, rfl, c8_target_revealed_iff_terminal.2 baseDB { session_id := "s1", pokemon_name := "targetmon" } 3 _ rfl⟩

/-- A session stored with current_guesses equal to max_guesses but not
flagged completed: still Active, yet getGameSession reports
can_guess = false. -/
def stuckDB : DB :=
  { pokemons := [c1Target, c1Guess]
    daily_pokemons := [{ id := 10, pokemon_id := 1 }]
    sessions := [{ session_id := "s2", daily_pokemon_id := 10, max_guesses := 1,
                   current_guesses := 1, is_completed := false, is_won := false,
                   completed_at := none }]
    guesses := [] }

unseal List.merge List.mergeSort in
/-- C10 counterexample: on stuckDB the session is not terminal
(is_completed = false, hence Active) but the view getGameSession returns
has can_guess = false, refuting can_guess = true iff Active for every
stored state. -/
theorem c10_can_guess_cex :
    ∃ st : GameState, getGameSession stuckDB { session_id := "s2" } = Except.ok st ∧
      st.session.is_completed = false ∧ st.can_guess = false :=
  ⟨_, rfl, rfl, rfl⟩

/-- C10 amended: the view returned by makeGuess has can_guess = true iff
the session is not terminal; the view returned by getGameSession has
can_guess = true iff the session is not terminal and its guess count is
below the budget. -/
theorem c10_can_guess :
    (∀ (db : DB) (input : MakeGuessInput) (now : Nat) (st : GameState),
        (makeGuess db input now).out = Except.ok st →
        st.can_guess = !st.session.is_completed) ∧
    (∀ (db : DB) (input : GetGameSessionInput) (st : GameState),
        getGameSession db input = Except.ok st →
        st.can_guess = (!st.session.is_completed &&
          decide (st.session.current_guesses < st.session.max_guesses))) := by
  constructor
  · intro db input now st h
    exact (makeGuess_ok_inv db input now st h).1
  · intro db input st h
    obtain ⟨s, t, -, hst⟩ := getGameSession_ok_inv db input st h
    subst hst
    rfl

unseal List.merge List.mergeSort in
/-- C10 witness: instantiated on baseDB for both handlers. -/
theorem c10_witness :
    (∃ st : GameState,
      (makeGuess baseDB { session_id := "s1", pokemon_name := "guessmon" } 3).out =
        Except.ok st ∧
      st.can_guess = !st.session.is_completed) ∧
    (∃ st : GameState, getGameSession baseDB { session_id := "s1" } = Except.ok st ∧
      st.can_guess = (!st.session.is_completed &&
        decide (st.session.current_guesses < st.session.max_guesses))) := by
  constructor
  · exact ⟨_, rfl, c10_can_guess.1 baseDB { session_id := "s1", pokemon_name := "guessmon" } 3 _ rfl⟩
  · exact ⟨_, rfl, c10_can_guess.2 baseDB { session_id := "s1" } _ rfl⟩

/-- The sequence numbers stored in the guess ledger for a session, in
storage order. -/
def guessNumbersFor (db : DB) (sid : String) : List Nat :=
  (db.guesses.filter (fun g => g.session_id == sid)).map (fun g => g.guess_number)

/-- The session-state invariant for one session row: counters bounded,
won implies completed, completed_at present iff completed, and the
stored sequence numbers are exactly 1..current_guesses (as a
permutation, i.e. dense with no gaps or duplicates). -/
def sessionOK (db : DB) (s : GameSession) : Prop :=
  s.current_guesses ≤ s.max_guesses ∧
  (s.is_won = true → s.is_completed = true) ∧
  (s.completed_at.isSome = true ↔ s.is_completed = true) ∧
  List.Perm (guessNumbersFor db s.session_id) (List.range' 1 s.current_guesses)

/-- The database-wide invariant: session identifiers are unique (the
data model makes the caller-supplied session identifier unique) and
every session row satisfies sessionOK. -/
def dbInv (db : DB) : Prop :=
  db.sessions.Pairwise (fun a b => a.session_id ≠ b.session_id) ∧
  ∀ s ∈ db.sessions, sessionOK db s

/-- C9: every makeGuess call, successful or failing, preserves the
session-state invariant. -/
theorem c9_invariant_preserved (db : DB) (input : MakeGuessInput) (now : Nat)
    (hinv : dbInv db) : dbInv (makeGuess db input now).db := by
  rcases makeGuess_db_shape db input now with hdb | ⟨s, t, g, h1, h2, h3, h4, hdb⟩
  · rw [hdb]
    exact hinv
  · obtain ⟨hpw, hok⟩ := hinv
    have hs := (lookupSessionJoin_inv h1).1
    have hmem : s ∈ db.sessions := List.mem_of_find?_eq_some hs
    have hsid : s.session_id = input.session_id := by
      simpa using List.find?_some hs
    rw [hdb]
    constructor
    · rw [List.pairwise_map]
      refine hpw.imp ?_
      intro a b hab hEq
      apply hab
      revert hEq
      by_cases ha : (a.session_id == input.session_id) = true <;>
        by_cases hb : (b.session_id == input.session_id) = true <;>
        simp [ha, hb]
    · intro s2 hs2
      rw [List.mem_map] at hs2
      obtain ⟨r, hr, hrw⟩ := hs2
      subst hrw
      by_cases hc : (r.session_id == input.session_id) = true
      · have hrs : r = s := pairwise_ne_unique (f := GameSession.session_id) hpw hr hmem
          ((beq_iff_eq.mp hc).trans hsid.symm)
        subst hrs
        obtain ⟨-, -, -, hperm⟩ := hok r hr
        simp only [if_pos hc]
        refine ⟨?_, ?_, ?_, ?_⟩
        · show r.current_guesses + 1 ≤ r.max_guesses
          omega
        · show (g.id == t.id) = true →
            ((g.id == t.id) || decide (r.max_guesses ≤ r.current_guesses + 1)) = true
          intro hw
          simp only [hw, Bool.true_or]
        · show ((if ((g.id == t.id) || decide (r.max_guesses ≤ r.current_guesses + 1)) = true
              then some now else none).isSome = true ↔
            ((g.id == t.id) || decide (r.max_guesses ≤ r.current_guesses + 1)) = true)
          cases hd : ((g.id == t.id) || decide (r.max_guesses ≤ r.current_guesses + 1)) <;>
            simp [hd]
        · show List.Perm (guessNumbersFor _ r.session_id)
            (List.range' 1 (r.current_guesses + 1))
          unfold guessNumbersFor at hperm ⊢
          simp only [List.filter_append, List.map_append]
          have hnew : (List.filter (fun x => x.session_id == r.session_id)
              [({ session_id := input.session_id, guess_number := r.current_guesses + 1,
                  guessed_pokemon_id := g.id, is_correct := g.id == t.id } : GameGuess)]) =
              [{ session_id := input.session_id, guess_number := r.current_guesses + 1,
                 guessed_pokemon_id := g.id, is_correct := g.id == t.id }] := by
            simp [hsid]
          rw [hnew, List.range'_1_concat, Nat.add_comm 1 r.current_guesses]
          exact hperm.append_right _
      · have hne : r.session_id ≠ input.session_id := by simpa using hc
        obtain ⟨ha1, hb1, hc1, hperm⟩ := hok r hr
        simp only [if_neg hc]
        refine ⟨ha1, hb1, hc1, ?_⟩
        unfold guessNumbersFor at hperm ⊢
        simp only [List.filter_append, List.map_append]
        have hnew : (List.filter (fun x => x.session_id == r.session_id)
            [({ session_id := input.session_id, guess_number := s.current_guesses + 1,
                guessed_pokemon_id := g.id, is_correct := g.id == t.id } : GameGuess)]) =
            [] := by
          simp
          exact fun h => absurd h.symm hne
        rw [hnew]
        simp only [List.map_nil, List.append_nil]
        exact hperm

/-- C9 witness: the invariant holds for baseDB and is preserved by an
incorrect guess on it. -/
theorem c9_witness :
    dbInv (makeGuess baseDB { session_id := "s1", pokemon_name := "guessmon" } 5).db :=
  c9_invariant_preserved baseDB { session_id := "s1", pokemon_name := "guessmon" } 5
    (by unfold dbInv sessionOK guessNumbersFor; decide)

end PokemonWordle
